import Mathlib

/-!
Shallow embedding of the Twitter-AI-Agent answer pipeline: the class
SportsExpert of src/experts/sports/expert.py (get_response and its four
stage helpers) and the /ask handler of app.py.

Modelling conventions:
  a Python collaborator (cache, knowledge base, URL sources, OpenAI
  client, web-search client, json.loads) is an oracle field of an
  environment record; a raised exception is `Except.error`; Python's
  `None` is `Option.none`; truthiness of an optional string is
  non-emptiness. Every pipeline operation also returns the ordered
  list of collaborator calls it performed, so that statements about
  which stages run, in which order, and what is written to the cache
  are statements about that call trace.
-/

namespace SportsPipeline

/-- A JSON value as Python's json.loads produces it (numbers modelled by
integers; the pipeline only ever inspects truthiness of a field). An
object's field list stands for a Python dict, so its keys are unique. -/
inductive JValue where
  | null : JValue
  | bool (b : Bool) : JValue
  | num (n : Int) : JValue
  | str (s : String) : JValue
  | arr (elems : List JValue) : JValue
  | obj (fields : List (String × JValue)) : JValue
  deriving Repr

/-- Python truthiness of a JSON value: None, False, 0, "", [] and {} are
falsy, everything else truthy. -/
def JValue.truthy : JValue → Bool
  | .null => false
  | .bool b => b
  | .num n => n != 0
  | .str s => !s.isEmpty
  | .arr elems => !elems.isEmpty
  | .obj fields => !fields.isEmpty

/-- Python dict.get(k, dflt) on a parsed JSON object. -/
def dictGet (fields : List (String × JValue)) (k : String) (dflt : JValue) : JValue :=
  match List.lookup k fields with
  | some v => v
  | none => dflt

/-- Python truthiness of an optional string, keeping the truthy value:
`pyTruthy o = some s` exactly when `o = some s` and `s` is non-empty. -/
def pyTruthy : Option String → Option String
  | some s => if s.isEmpty then none else some s
  | none => none

/-- One collaborator call made by the pipeline (what a mocked
collaborator would record). -/
inductive Event where
  | cacheGetCall (q : String) : Event
  | cacheSetCall (q answer : String) : Event
  | kbCall : Event
  | findAnswerCall (q : String) : Event
  | urlCall (q : String) : Event
  | completionCall (systemPrompt userPrompt : String) : Event
  | searchCall (q : String) : Event
  deriving DecidableEq, Repr

/-- The collaborators of SportsExpert, as oracles. `Except.error ()`
is the collaborator raising; `Except.ok` its normal return value.
`jsonLoads` stands for json.loads on a string (json.loads(None), which
always raises TypeError, is handled at the call site). -/
structure Env where
  cacheGet : String → Except Unit (Option String)
  cacheSet : String → String → Except Unit Unit
  getKnowledgeBase : Except Unit Unit
  findAnswer : String → Except Unit (Option String)
  searchUrlSources : String → Except Unit (Option String)
  getCompletion : String → String → Except Unit (Option String)
  search : String → Except Unit (List String)
  jsonLoads : String → Except Unit JValue

/-- The system prompt of _generate_ai_response (expert.py lines 82-84,
a triple-quoted literal, indentation included). -/
def ai_system_prompt : String :=
  "You are a sports expert assistant. Provide accurate and helpful responses\n        about sports, athletes, teams, competitions, rules, and sports history. If you're not confident\n        about the answer, indicate that."

/-- The search query of _perform_web_search (expert.py line 97). -/
def web_search_query (q : String) : String :=
  q ++ " spor haberleri güncel"

/-- The synthesis system prompt of _perform_web_search (expert.py
lines 105-111). -/
def web_system_prompt : String :=
  "Sen bir spor uzmanısın. Web arama sonuçlarını kullanarak soruya kapsamlı ve doğru bir yanıt üretmelisin.\n            Yanıt üretirken şu kurallara uy:\n            1. Web arama sonuçlarındaki bilgilerin doğruluğunu kontrol et\n            2. Bilgilerin güncelliğini kontrol et\n            3. Çelişkili bilgiler varsa en güvenilir kaynağı seç\n            4. Emin olmadığın bilgileri verme\n            5. Yanıtı net ve anlaşılır bir şekilde ver"

/-- The synthesis user message of _perform_web_search (expert.py
line 115). -/
def web_user_message (q ctx : String) : String :=
  "Soru: " ++ q ++ "\n\nWeb arama sonuçları:\n" ++ ctx ++ "\n\nBu bilgileri kullanarak soruya yanıt ver."

/-- The validation system prompt of _perform_web_search (expert.py
lines 120-122). -/
def validation_prompt : String :=
  "Web arama sonuçlarından üretilen yanıtın doğruluğunu kontrol et.\n                Yanıt güvenilir ve güncel bilgiler içeriyorsa onay ver.\n                Yanıt JSON formatında olmalı: \x7b\"is_valid\": boolean, \"reason\": string\x7d"

/-- The validation user message of _perform_web_search (expert.py
line 126). -/
def validation_user_message (response ctx : String) : String :=
  "Yanıt: " ++ response ++ "\n\nKaynaklar:\n" ++ ctx

/-- The fallback apology of get_response (expert.py line 57). -/
def fallback_message : String :=
  "I apologize, but I couldn't find a satisfactory answer to your sports-related question. Could you please rephrase or provide more details?"

/-- The degraded message of get_response's top-level except handler
(expert.py line 61). -/
def error_message : String :=
  "I encountered an error while processing your sports-related request. Please try again."

/-- _check_local_knowledge (expert.py lines 63-70): get_knowledge_base()
then find_answer(query), any exception caught and logged, returning
None. (The knowledge-base value itself is unused by the source.) -/
def check_local_knowledge (env : Env) (q : String) : List Event × Option String :=
  match env.getKnowledgeBase with
  | .error _ => ([.kbCall], none)
  | .ok _ =>
    match env.findAnswer q with
    | .error _ => ([.kbCall, .findAnswerCall q], none)
    | .ok r => ([.kbCall, .findAnswerCall q], r)

/-- _check_url_sources (expert.py lines 72-78): search_url_sources(query),
any exception caught and logged, returning None. -/
def check_url_sources (env : Env) (q : String) : List Event × Option String :=
  match env.searchUrlSources q with
  | .error _ => ([.urlCall q], none)
  | .ok r => ([.urlCall q], r)

/-- _generate_ai_response (expert.py lines 80-91): one completion call
with the fixed system prompt, any exception caught and logged,
returning None. -/
def generate_ai_response (env : Env) (q : String) : List Event × Option String :=
  match env.getCompletion ai_system_prompt q with
  | .error _ => ([.completionCall ai_system_prompt q], none)
  | .ok r => ([.completionCall ai_system_prompt q], r)

/-- The inner try of _perform_web_search (expert.py lines 129-134):
json.loads(validation) then validation_result.get("is_valid", False).
json.loads(None) raises TypeError, a parse failure raises, and .get on
a non-dict raises AttributeError; every one is caught by the bare
except and falls through to returning None, so each is `false` here. -/
def validation_approves (env : Env) (validation : Option String) : Bool :=
  match validation with
  | none => false
  | some v =>
    match env.jsonLoads v with
    | .error _ => false
    | .ok (JValue.obj fields) => (dictGet fields "is_valid" (JValue.bool false)).truthy
    | .ok _ => false

/-- _perform_web_search (expert.py lines 93-140): search, synthesize
from the top 3 snippets, validate, return the synthesized answer only
on approval; any exception caught and logged, returning None. -/
def perform_web_search (env : Env) (q : String) : List Event × Option String :=
  let sq := web_search_query q
  match env.search sq with
  | .error _ => ([.searchCall sq], none)
  | .ok results =>
    if results.isEmpty then
      ([.searchCall sq], none)
    else
      let ctx := String.intercalate "\n" (results.take 3)
      let userMsg := web_user_message q ctx
      match env.getCompletion web_system_prompt userMsg with
      | .error _ => ([.searchCall sq, .completionCall web_system_prompt userMsg], none)
      | .ok resp =>
        match pyTruthy resp with
        | some r =>
          let vMsg := validation_user_message r ctx
          match env.getCompletion validation_prompt vMsg with
          | .error _ =>
            ([.searchCall sq, .completionCall web_system_prompt userMsg,
              .completionCall validation_prompt vMsg], none)
          | .ok validation =>
            ([.searchCall sq, .completionCall web_system_prompt userMsg,
              .completionCall validation_prompt vMsg],
             if validation_approves env validation then some r else none)
        | none => ([.searchCall sq, .completionCall web_system_prompt userMsg], none)

/-- The pattern repeated for each of steps 1-4 of get_response
(expert.py lines 33-54): if the stage's result is truthy, cache.set it
(a raise there propagates) and return it; otherwise run the rest of
the pipeline. -/
def resolve_stage (env : Env) (q : String) (stage : List Event × Option String)
    (next : List Event × Except Unit String) : List Event × Except Unit String :=
  match pyTruthy stage.2 with
  | some r =>
    match env.cacheSet q r with
    | .error _ => (stage.1 ++ [.cacheSetCall q r], .error ())
    | .ok _ => (stage.1 ++ [.cacheSetCall q r], .ok r)
  | none => (stage.1 ++ next.1, next.2)

/-- Steps 1-5 of get_response after a cache miss (expert.py lines
32-57): local knowledge, URL sources, AI generation, web search, then
the fixed fallback string (never cached). -/
def stages_after_cache (env : Env) (q : String) : List Event × Except Unit String :=
  resolve_stage env q (check_local_knowledge env q)
    (resolve_stage env q (check_url_sources env q)
      (resolve_stage env q (generate_ai_response env q)
        (resolve_stage env q (perform_web_search env q)
          ([], .ok fallback_message))))

/-- The try block of get_response (expert.py lines 26-57): cache lookup
first, a truthy hit returned as is; `Except.error` is an uncaught
exception reaching the top-level handler. -/
def get_response_body (env : Env) (q : String) : List Event × Except Unit String :=
  match env.cacheGet q with
  | .error _ => ([.cacheGetCall q], .error ())
  | .ok cached =>
    match pyTruthy cached with
    | some c => ([.cacheGetCall q], .ok c)
    | none =>
      let rest := stages_after_cache env q
      (Event.cacheGetCall q :: rest.1, rest.2)

/-- get_response (expert.py lines 24-61): the body with its top-level
except handler, which logs and returns the fixed error message. On
every path the source returns a string (its Optional[str] annotation
notwithstanding). -/
def get_response (env : Env) (q : String) : List Event × String :=
  match get_response_body env q with
  | (evs, .ok r) => (evs, r)
  | (evs, .error _) => (evs, error_message)

/-- The first truthy stage result in the fixed order LOCAL_KB,
URL_SOURCES, AI_GENERATE, WEB_SEARCH. Stated from the spec's state
machine, to be compared with what get_response computes. -/
def spec_first_hit (env : Env) (q : String) : Option String :=
  (pyTruthy (check_local_knowledge env q).2).orElse fun _ =>
    (pyTruthy (check_url_sources env q).2).orElse fun _ =>
      (pyTruthy (generate_ai_response env q).2).orElse fun _ =>
        pyTruthy (perform_web_search env q).2

/-- The call trace the spec's state machine prescribes after a cache
miss: each stage's calls in the fixed order, stopping with a cache
write right after the first truthy result. -/
def spec_stage_trace (env : Env) (q : String) : List Event :=
  (check_local_knowledge env q).1 ++
    match pyTruthy (check_local_knowledge env q).2 with
    | some r => [Event.cacheSetCall q r]
    | none =>
      (check_url_sources env q).1 ++
        match pyTruthy (check_url_sources env q).2 with
        | some r => [Event.cacheSetCall q r]
        | none =>
          (generate_ai_response env q).1 ++
            match pyTruthy (generate_ai_response env q).2 with
            | some r => [Event.cacheSetCall q r]
            | none =>
              (perform_web_search env q).1 ++
                match pyTruthy (perform_web_search env q).2 with
                | some r => [Event.cacheSetCall q r]
                | none => []

/-! Concrete collaborator environments, used to evaluate the pipeline on
closed inputs. -/

/-- A cache hit: the cache holds a non-empty answer and every other
collaborator would raise if it were reached. -/
def envCacheHit : Env where
  cacheGet := fun _ => .ok (some "the cached answer")
  cacheSet := fun _ _ => .error ()
  getKnowledgeBase := .error ()
  findAnswer := fun _ => .error ()
  searchUrlSources := fun _ => .error ()
  getCompletion := fun _ _ => .error ()
  search := fun _ => .error ()
  jsonLoads := fun _ => .error ()

/-- Cache and local knowledge miss, the URL-source stage answers, later
collaborators would raise if reached. -/
def envUrlHit : Env where
  cacheGet := fun _ => .ok none
  cacheSet := fun _ _ => .ok ()
  getKnowledgeBase := .ok ()
  findAnswer := fun _ => .ok none
  searchUrlSources := fun _ => .ok (some "Galatasaray won 24 titles")
  getCompletion := fun _ _ => .error ()
  search := fun _ => .error ()
  jsonLoads := fun _ => .error ()

/-- Every substantive stage misses without raising: empty knowledge
base, no URL match, empty completion, empty search results. -/
def envAllMiss : Env where
  cacheGet := fun _ => .ok none
  cacheSet := fun _ _ => .ok ()
  getKnowledgeBase := .ok ()
  findAnswer := fun _ => .ok none
  searchUrlSources := fun _ => .ok none
  getCompletion := fun _ _ => .ok none
  search := fun _ => .ok []
  jsonLoads := fun _ => .error ()

/-- Every collaborator raises, the cache included. -/
def envAllFail : Env where
  cacheGet := fun _ => .error ()
  cacheSet := fun _ _ => .error ()
  getKnowledgeBase := .error ()
  findAnswer := fun _ => .error ()
  searchUrlSources := fun _ => .error ()
  getCompletion := fun _ _ => .error ()
  search := fun _ => .error ()
  jsonLoads := fun _ => .error ()

/-- The validation text an LLM could return: well-formed JSON carrying
is_valid but no reason field. -/
def validation_text_no_reason : String := "\x7b\"is_valid\": true\x7d"

/-- The validation text an LLM could return: well-formed JSON whose
is_valid is the string "yes", not a boolean. -/
def validation_text_nonbool : String := "\x7b\"is_valid\": \"yes\", \"reason\": \"sources agree\"\x7d"

/-- A run reaching web search whose validation response parses to an
object with is_valid true but no reason field; jsonLoads maps that
text to its actual JSON parse. -/
def envNoReason : Env where
  cacheGet := fun _ => .ok none
  cacheSet := fun _ _ => .ok ()
  getKnowledgeBase := .ok ()
  findAnswer := fun _ => .ok none
  searchUrlSources := fun _ => .ok none
  getCompletion := fun sys _ =>
    if sys == validation_prompt then .ok (some validation_text_no_reason)
    else .ok (some "Argentina won the 2022 World Cup")
  search := fun _ => .ok ["snippet about the 2022 final"]
  jsonLoads := fun v =>
    if v == validation_text_no_reason then .ok (JValue.obj [("is_valid", JValue.bool true)])
    else .error ()

/-- A run reaching web search whose validation response parses to an
object whose is_valid is a non-boolean truthy string. -/
def envNonBool : Env where
  cacheGet := fun _ => .ok none
  cacheSet := fun _ _ => .ok ()
  getKnowledgeBase := .ok ()
  findAnswer := fun _ => .ok none
  searchUrlSources := fun _ => .ok none
  getCompletion := fun sys _ =>
    if sys == validation_prompt then .ok (some validation_text_nonbool)
    else .ok (some "Argentina won the 2022 World Cup")
  search := fun _ => .ok ["snippet about the 2022 final"]
  jsonLoads := fun v =>
    if v == validation_text_nonbool then
      .ok (JValue.obj [("is_valid", JValue.str "yes"), ("reason", JValue.str "sources agree")])
    else .error ()

/-- As envNoReason, but every validation response is unparsable JSON. -/
def envJsonFail : Env :=
  { envNoReason with jsonLoads := fun _ => .error () }

end SportsPipeline

namespace AppModel

open SportsPipeline

/-- What the /ask handler replies with (app.py lines 61-119): a success
payload carrying answer and expert_type, or an error payload carrying a
message, a machine-readable code and an HTTP status. -/
inductive AskOutcome where
  | success (answer expertType : String) : AskOutcome
  | failure (message code : String) (status : Nat) : AskOutcome
  deriving DecidableEq, Repr

/-- The collaborators of the /ask handler. `selectorUp` is
`expert_selector is not None` (app.py line 64), `getJson` models
request.get_json() returning None or a dict whose question field may be
absent or any string, `selectExpert` returns the
(expert_type, direct_response) pair, and each expert oracle is its
get_response with `...Up` that expert's non-None-ness. A raised
exception is `Except.error` carrying str(e). -/
structure AppEnv where
  selectorUp : Bool
  getJson : Except String (Option (Option String))
  selectExpert : String → Except String (Option String × Option String)
  sportsUp : Bool
  foodUp : Bool
  aiUp : Bool
  sudostarUp : Bool
  sportsResponse : String → Except String (Option String)
  foodResponse : String → Except String (Option String)
  aiResponse : String → Except String (Option String)
  sudostarResponse : String → Except String (Option String)

/-- The expert dispatch of /ask (app.py lines 84-94), entered when
expert_type is truthy: string comparison against each domain, guarded
by that expert having been constructed; anything else gives None. -/
def dispatch (env : AppEnv) (t q : String) : Except String (Option String) :=
  if t == "sports" && env.sportsUp then env.sportsResponse q
  else if t == "food" && env.foodUp then env.foodResponse q
  else if t == "ai" && env.aiUp then env.aiResponse q
  else if t == "sudostar" && env.sudostarUp then env.sudostarResponse q
  else pure none

/-- The try block of /ask (app.py lines 63-111). request.get_json()
returning None makes data.get raise AttributeError; a falsy question
(absent, None or empty) is MISSING_QUESTION; a falsy response is
NO_RESPONSE; a truthy response is returned with expert_type, or
"general" when expert_type is falsy. -/
def ask_body (env : AppEnv) : Except String AskOutcome :=
  if !env.selectorUp then
    Except.ok (AskOutcome.failure "Expert system is not initialized" "EXPERT_SYSTEM_ERROR" 500)
  else
    match env.getJson with
    | .error e => .error e
    | .ok none => .error "NoneType object has no attribute get"
    | .ok (some questionField) =>
      match pyTruthy questionField with
      | none => Except.ok (AskOutcome.failure "Question is required" "MISSING_QUESTION" 400)
      | some question =>
        match env.selectExpert question with
        | .error e => .error e
        | .ok sel =>
          match (match pyTruthy sel.1 with
                 | some t => dispatch env t question
                 | none => Except.ok sel.2) with
          | .error e => .error e
          | .ok response =>
            match pyTruthy response with
            | none => Except.ok (AskOutcome.failure "Could not generate response" "NO_RESPONSE" 500)
            | some r =>
              Except.ok (AskOutcome.success r
                (match pyTruthy sel.1 with
                 | some t => t
                 | none => "general"))

/-- The /ask handler (app.py lines 61-119): its body with the final
except handler, which replies with str(e) under code INTERNAL_ERROR. -/
def ask (env : AppEnv) : AskOutcome :=
  match ask_body env with
  | .ok r => r
  | .error e => AskOutcome.failure e "INTERNAL_ERROR" 500

/-- A nominal boundary run: selector up, a non-empty question, routed
to a constructed sports expert that answers. -/
def askEnv0 : AppEnv where
  selectorUp := true
  getJson := .ok (some (some "who won the 2022 world cup"))
  selectExpert := fun _ => .ok (some "sports", none)
  sportsUp := true
  foodUp := false
  aiUp := false
  sudostarUp := false
  sportsResponse := fun _ => .ok (some "Argentina won the 2022 World Cup")
  foodResponse := fun _ => .ok none
  aiResponse := fun _ => .ok none
  sudostarResponse := fun _ => .ok none

/-- A boundary run whose sports expert is the actual pipeline over the
all-raising collaborators: the /ask handler wired to what get_response
really returns when the cache itself is unavailable. -/
def envCallerPassthrough : AppEnv where
  selectorUp := true
  getJson := .ok (some (some "who won"))
  selectExpert := fun _ => .ok (some "sports", none)
  sportsUp := true
  foodUp := false
  aiUp := false
  sudostarUp := false
  sportsResponse := fun q => .ok (some (get_response envAllFail q).2)
  foodResponse := fun _ => .ok none
  aiResponse := fun _ => .ok none
  sudostarResponse := fun _ => .ok none

end AppModel

/-! ## Theorems -/

namespace SportsPipeline

theorem pyTruthy_eq_some {o : Option String} {r : String} (h : pyTruthy o = some r) :
    o = some r ∧ r.isEmpty = false := by
  cases o with
  | none => simp [pyTruthy] at h
  | some s =>
    by_cases hs : s.isEmpty
    · simp [pyTruthy, hs] at h
    · simp [pyTruthy, hs] at h
      subst h
      exact ⟨rfl, by simpa using hs⟩

theorem pyTruthy_ne_empty {o : Option String} {r : String} (h : pyTruthy o = some r) :
    r ≠ "" := by
  intro he
  have h2 := (pyTruthy_eq_some h).2
  rw [he] at h2
  exact absurd h2 (by decide)

theorem resolve_stage_hit (env : Env) (q : String) (s : List Event × Option String)
    (next : List Event × Except Unit String) (r : String)
    (h : pyTruthy s.2 = some r) (hset : env.cacheSet q r = Except.ok ()) :
    resolve_stage env q s next = (s.1 ++ [Event.cacheSetCall q r], Except.ok r) := by
  simp [resolve_stage, h, hset]

theorem resolve_stage_hit_error (env : Env) (q : String) (s : List Event × Option String)
    (next : List Event × Except Unit String) (r : String)
    (h : pyTruthy s.2 = some r) (hset : env.cacheSet q r = Except.error ()) :
    resolve_stage env q s next = (s.1 ++ [Event.cacheSetCall q r], Except.error ()) := by
  simp [resolve_stage, h, hset]

theorem resolve_stage_miss (env : Env) (q : String) (s : List Event × Option String)
    (next : List Event × Except Unit String) (h : pyTruthy s.2 = none) :
    resolve_stage env q s next = (s.1 ++ next.1, next.2) := by
  simp [resolve_stage, h]

theorem check_local_no_set (env : Env) (q : String) (a r : String) :
    Event.cacheSetCall a r ∉ (check_local_knowledge env q).1 := by
  rcases hkb : env.getKnowledgeBase with _ | _
  · simp [check_local_knowledge, hkb]
  · rcases hfa : env.findAnswer q with _ | r2 <;> simp [check_local_knowledge, hkb, hfa]

theorem check_url_no_set (env : Env) (q : String) (a r : String) :
    Event.cacheSetCall a r ∉ (check_url_sources env q).1 := by
  rcases hu : env.searchUrlSources q with _ | r2 <;> simp [check_url_sources, hu]

theorem generate_ai_no_set (env : Env) (q : String) (a r : String) :
    Event.cacheSetCall a r ∉ (generate_ai_response env q).1 := by
  rcases hc : env.getCompletion ai_system_prompt q with _ | r2 <;> simp [generate_ai_response, hc]

theorem web_no_set (env : Env) (q : String) (a r : String) :
    Event.cacheSetCall a r ∉ (perform_web_search env q).1 := by
  unfold perform_web_search
  dsimp only
  split <;> try simp
  split <;> try simp
  split <;> try simp
  split <;> try simp
  split <;> simp

end SportsPipeline

namespace SportsPipeline

theorem stages_after_cache_eq (env : Env) (q : String)
    (hset : ∀ r, env.cacheSet q r = Except.ok ()) :
    stages_after_cache env q =
      (spec_stage_trace env q, Except.ok ((spec_first_hit env q).getD fallback_message)) := by
  rcases hL : pyTruthy (check_local_knowledge env q).2 with _ | rL <;>
  rcases hU : pyTruthy (check_url_sources env q).2 with _ | rU <;>
  rcases hA : pyTruthy (generate_ai_response env q).2 with _ | rA <;>
  rcases hW : pyTruthy (perform_web_search env q).2 with _ | rW <;>
  simp [stages_after_cache, resolve_stage, spec_stage_trace, spec_first_hit,
    hL, hU, hA, hW, hset, Option.orElse]

theorem spec_trace_last (env : Env) (q : String) (r : String)
    (hr : spec_first_hit env q = some r) :
    (Event.cacheGetCall q :: spec_stage_trace env q).getLast? = some (Event.cacheSetCall q r) := by
  rcases hL : pyTruthy (check_local_knowledge env q).2 with _ | rL <;>
  rcases hU : pyTruthy (check_url_sources env q).2 with _ | rU <;>
  rcases hA : pyTruthy (generate_ai_response env q).2 with _ | rA <;>
  rcases hW : pyTruthy (perform_web_search env q).2 with _ | rW <;>
  simp [spec_first_hit, hL, hU, hA, hW, Option.orElse] at hr <;>
  subst hr <;>
  simp only [spec_stage_trace, hL, hU, hA, hW] <;>
  simp only [← List.append_assoc, ← List.cons_append, List.getLast?_concat]

end SportsPipeline

namespace SportsPipeline

theorem resolve_stage_ok (env : Env) (q : String) (s : List Event × Option String)
    (next : List Event × Except Unit String) (r : String)
    (h : (resolve_stage env q s next).2 = Except.ok r) :
    pyTruthy s.2 = some r ∨ next.2 = Except.ok r := by
  rcases hp : pyTruthy s.2 with _ | r0
  · right
    rw [resolve_stage_miss env q s next hp] at h
    exact h
  · rcases hcs : env.cacheSet q r0 with _ | _
    · rw [resolve_stage_hit_error env q s next r0 hp hcs] at h
      simp at h
    · rw [resolve_stage_hit env q s next r0 hp hcs] at h
      simp at h
      subst h
      exact Or.inl rfl

theorem body_ok_ne_empty (env : Env) (q : String) (r : String)
    (h : (get_response_body env q).2 = Except.ok r) : r ≠ "" := by
  rcases hg : env.cacheGet q with _ | cached
  · simp [get_response_body, hg] at h
  · rcases hc : pyTruthy cached with _ | c
    · have h' : (stages_after_cache env q).2 = Except.ok r := by
        simpa [get_response_body, hg, hc] using h
      unfold stages_after_cache at h'
      rcases resolve_stage_ok _ _ _ _ _ h' with h1 | h'
      · exact pyTruthy_ne_empty h1
      rcases resolve_stage_ok _ _ _ _ _ h' with h1 | h'
      · exact pyTruthy_ne_empty h1
      rcases resolve_stage_ok _ _ _ _ _ h' with h1 | h'
      · exact pyTruthy_ne_empty h1
      rcases resolve_stage_ok _ _ _ _ _ h' with h1 | h'
      · exact pyTruthy_ne_empty h1
      · simp at h'
        subst h'
        decide
    · simp [get_response_body, hg, hc] at h
      subst h
      exact pyTruthy_ne_empty hc

/-- C1: after a cache miss get_response runs LOCAL_KB, URL_SOURCES,
AI_GENERATE, WEB_SEARCH in that fixed order, the first truthy stage
result is returned after being written to the cache (the write is the
last collaborator call), and a total miss returns the fallback. -/
theorem get_response_fixed_order_first_hit (env : Env) (q : String) (cached : Option String)
    (hget : env.cacheGet q = Except.ok cached)
    (hmiss : pyTruthy cached = none)
    (hset : ∀ r, env.cacheSet q r = Except.ok ()) :
    (get_response env q).2 = (spec_first_hit env q).getD fallback_message
    ∧ (get_response env q).1 = Event.cacheGetCall q :: spec_stage_trace env q
    ∧ (∀ r, spec_first_hit env q = some r →
        (get_response env q).1.getLast? = some (Event.cacheSetCall q r)) := by
  have hst := stages_after_cache_eq env q hset
  have hbody : get_response_body env q =
      (Event.cacheGetCall q :: spec_stage_trace env q,
        Except.ok ((spec_first_hit env q).getD fallback_message)) := by
    simp [get_response_body, hget, hmiss, hst]
  refine ⟨?_, ?_, ?_⟩
  · simp [get_response, hbody]
  · simp [get_response, hbody]
  · intro r hr
    have h1 : (get_response env q).1 = Event.cacheGetCall q :: spec_stage_trace env q := by
      simp [get_response, hbody]
    rw [h1]
    exact spec_trace_last env q r hr

theorem get_response_fixed_order_witness :
    (get_response envUrlHit "who won").2 = "Galatasaray won 24 titles"
    ∧ (get_response envUrlHit "who won").1.getLast? =
        some (Event.cacheSetCall "who won" "Galatasaray won 24 titles") := by
  have h := get_response_fixed_order_first_hit envUrlHit "who won" none rfl rfl (fun _ => rfl)
  exact ⟨h.1.trans (by rfl), h.2.2 "Galatasaray won 24 titles" (by rfl)⟩

/-- C3: a truthy cache hit is returned as is, with no stage invoked and
no cache write: the whole call trace is the one cache lookup. -/
theorem cache_hit_short_circuit (env : Env) (q c : String)
    (hhit : env.cacheGet q = Except.ok (some c)) (hne : c.isEmpty = false) :
    get_response env q = ([Event.cacheGetCall q], c) := by
  simp [get_response, get_response_body, hhit, pyTruthy, hne]

theorem cache_hit_short_circuit_witness :
    get_response envCacheHit "any question" = ([Event.cacheGetCall "any question"], "the cached answer") :=
  cache_hit_short_circuit envCacheHit "any question" "the cached answer" rfl rfl

/-- C5: get_response never returns the empty string. -/
theorem get_response_never_empty (env : Env) (q : String) :
    (get_response env q).2 ≠ "" := by
  rcases hb : get_response_body env q with ⟨evs, res⟩
  rcases res with _ | r
  · simp [get_response, hb]
    decide
  · have hr : (get_response_body env q).2 = Except.ok r := by rw [hb]
    have hne := body_ok_ne_empty env q r hr
    simp [get_response, hb, hne]

/-- C6: when the cache misses and all four substantive stages miss,
get_response returns the fixed fallback apology and never calls
cache.set. -/
theorem exhaustion_fallback_uncached (env : Env) (q : String) (cached : Option String)
    (hget : env.cacheGet q = Except.ok cached) (hmiss : pyTruthy cached = none)
    (hL : pyTruthy (check_local_knowledge env q).2 = none)
    (hU : pyTruthy (check_url_sources env q).2 = none)
    (hA : pyTruthy (generate_ai_response env q).2 = none)
    (hW : pyTruthy (perform_web_search env q).2 = none) :
    (get_response env q).2 = fallback_message
    ∧ ∀ a r, Event.cacheSetCall a r ∉ (get_response env q).1 := by
  have hstages : stages_after_cache env q =
      ((check_local_knowledge env q).1 ++ ((check_url_sources env q).1 ++
        ((generate_ai_response env q).1 ++ ((perform_web_search env q).1 ++ []))),
       Except.ok fallback_message) := by
    simp [stages_after_cache, resolve_stage, hL, hU, hA, hW]
  constructor
  · simp [get_response, get_response_body, hget, hmiss, hstages]
  · intro a r
    simp [get_response, get_response_body, hget, hmiss, hstages,
      check_local_no_set, check_url_no_set, generate_ai_no_set, web_no_set]

theorem exhaustion_fallback_uncached_witness :
    (get_response envAllMiss "any question").2 = fallback_message
    ∧ Event.cacheSetCall "any question" fallback_message ∉ (get_response envAllMiss "any question").1 := by
  have h := exhaustion_fallback_uncached envAllMiss "any question" none rfl rfl rfl rfl rfl rfl
  exact ⟨h.1, h.2 "any question" fallback_message⟩

end SportsPipeline

namespace SportsPipeline

theorem validation_approves_json_fail (env : Env)
    (h : ∀ v, env.jsonLoads v = Except.error ()) (validation : Option String) :
    validation_approves env validation = false := by
  cases validation with
  | none => rfl
  | some v => simp [validation_approves, h v]

theorem web_none_of_no_approve (env : Env) (q : String)
    (h : ∀ validation, validation_approves env validation = false) :
    (perform_web_search env q).2 = none := by
  unfold perform_web_search
  dsimp only
  repeat' split
  all_goals simp_all

/-- C7: every stage helper catches its collaborator's failure and turns
it into "no answer" (never an exception), and a no-answer stage makes
the driver fall through to the next stage. -/
theorem stage_failures_contained (env : Env) (q : String) :
    (env.getKnowledgeBase = Except.error () → (check_local_knowledge env q).2 = none)
    ∧ (env.findAnswer q = Except.error () → (check_local_knowledge env q).2 = none)
    ∧ (env.searchUrlSources q = Except.error () → (check_url_sources env q).2 = none)
    ∧ (env.getCompletion ai_system_prompt q = Except.error () → (generate_ai_response env q).2 = none)
    ∧ (env.search (web_search_query q) = Except.error () → (perform_web_search env q).2 = none)
    ∧ ((∀ v, env.jsonLoads v = Except.error ()) → (perform_web_search env q).2 = none)
    ∧ (∀ s next, pyTruthy s.2 = none →
        resolve_stage env q s next = (s.1 ++ next.1, next.2)) := by
  refine ⟨?_, ?_, ?_, ?_, ?_, ?_, fun s next h => resolve_stage_miss env q s next h⟩
  · intro h
    simp [check_local_knowledge, h]
  · intro h
    rcases hkb : env.getKnowledgeBase with _ | _ <;> simp [check_local_knowledge, hkb, h]
  · intro h
    simp [check_url_sources, h]
  · intro h
    simp [generate_ai_response, h]
  · intro h
    simp [perform_web_search, h]
  · intro h
    exact web_none_of_no_approve env q (validation_approves_json_fail env h)

theorem stage_failures_contained_witness :
    (check_local_knowledge envAllFail "a question").2 = none
    ∧ (check_url_sources envAllFail "a question").2 = none
    ∧ (generate_ai_response envAllFail "a question").2 = none
    ∧ (perform_web_search envAllFail "a question").2 = none := by
  have h := stage_failures_contained envAllFail "a question"
  exact ⟨h.1 rfl, h.2.2.1 rfl, h.2.2.2.1 rfl, h.2.2.2.2.1 rfl⟩

theorem resolve_stage_error (env : Env) (q : String) (s : List Event × Option String)
    (next : List Event × Except Unit String)
    (h : (resolve_stage env q s next).2 = Except.error ()) :
    (∃ r, env.cacheSet q r = Except.error ()) ∨ next.2 = Except.error () := by
  rcases hp : pyTruthy s.2 with _ | r0
  · right
    rw [resolve_stage_miss env q s next hp] at h
    exact h
  · rcases hcs : env.cacheSet q r0 with u | u
    · cases u
      exact Or.inl ⟨r0, hcs⟩
    · rw [resolve_stage_hit env q s next r0 hp hcs] at h
      simp at h

theorem body_error_cache (env : Env) (q : String)
    (h : (get_response_body env q).2 = Except.error ()) :
    env.cacheGet q = Except.error () ∨ ∃ r, env.cacheSet q r = Except.error () := by
  rcases hg : env.cacheGet q with u | cached
  · cases u
    exact Or.inl rfl
  · right
    rcases hc : pyTruthy cached with _ | c
    · have h' : (stages_after_cache env q).2 = Except.error () := by
        simpa [get_response_body, hg, hc] using h
      unfold stages_after_cache at h'
      rcases resolve_stage_error _ _ _ _ h' with h1 | h'
      · exact h1
      rcases resolve_stage_error _ _ _ _ h' with h1 | h'
      · exact h1
      rcases resolve_stage_error _ _ _ _ h' with h1 | h'
      · exact h1
      rcases resolve_stage_error _ _ _ _ h' with h1 | h'
      · exact h1
      · simp at h'
    · simp [get_response_body, hg, hc] at h

/-- C8 amended: the pipeline aborts only when a top-level cache
operation raises, the later stages never running, and the abort is
converted into the fixed degraded message by get_response itself (its
top-level except handler) — no error surfaces out of get_response for
its caller to convert. -/
theorem only_cache_failure_aborts (env : Env) (q : String) :
    ((get_response_body env q).2 = Except.error () →
      env.cacheGet q = Except.error () ∨ ∃ r, env.cacheSet q r = Except.error ())
    ∧ (env.cacheGet q = Except.error () →
        get_response env q = ([Event.cacheGetCall q], error_message)) := by
  constructor
  · exact body_error_cache env q
  · intro h
    simp [get_response, get_response_body, h]

theorem only_cache_failure_aborts_witness :
    get_response envAllFail "another question" = ([Event.cacheGetCall "another question"], error_message) :=
  (only_cache_failure_aborts envAllFail "another question").2 rfl

theorem resolve_stage_error_sets (env : Env) (q : String) (s : List Event × Option String)
    (next : List Event × Except Unit String)
    (hsno : ∀ a r, Event.cacheSetCall a r ∉ s.1)
    (hnext : next.2 = Except.error () → ∀ a r, Event.cacheSetCall a r ∈ next.1 →
      env.cacheSet a r = Except.error ()) :
    (resolve_stage env q s next).2 = Except.error () → ∀ a r,
      Event.cacheSetCall a r ∈ (resolve_stage env q s next).1 →
      env.cacheSet a r = Except.error () := by
  intro herr a r hmem
  rcases hp : pyTruthy s.2 with _ | r0
  · rw [resolve_stage_miss env q s next hp] at herr hmem
    rcases List.mem_append.mp hmem with hm | hm
    · exact absurd hm (hsno a r)
    · exact hnext herr a r hm
  · rcases hcs : env.cacheSet q r0 with u | u
    · cases u
      rw [resolve_stage_hit_error env q s next r0 hp hcs] at hmem
      rcases List.mem_append.mp hmem with hm | hm
      · exact absurd hm (hsno a r)
      · simp at hm
        obtain ⟨ha, hr⟩ := hm
        subst ha
        subst hr
        exact hcs
    · rw [resolve_stage_hit env q s next r0 hp hcs] at herr
      simp at herr

theorem stages_error_sets (env : Env) (q : String) :
    (stages_after_cache env q).2 = Except.error () → ∀ a r,
      Event.cacheSetCall a r ∈ (stages_after_cache env q).1 →
      env.cacheSet a r = Except.error () := by
  unfold stages_after_cache
  refine resolve_stage_error_sets env q _ _ (check_local_no_set env q) ?_
  refine resolve_stage_error_sets env q _ _ (check_url_no_set env q) ?_
  refine resolve_stage_error_sets env q _ _ (generate_ai_no_set env q) ?_
  refine resolve_stage_error_sets env q _ _ (web_no_set env q) ?_
  intro herr
  simp at herr

/-- C10: get_response is total: every uncaught exception of the body is
converted into the fixed non-empty error message, and nothing is
successfully written to the cache on such an error path (a cacheGet
failure precedes any write attempt, and a write attempt on the error
path is itself the raising call). -/
theorem get_response_total (env : Env) (q : String) :
    ((get_response_body env q).2 = Except.error () → (get_response env q).2 = error_message)
    ∧ error_message ≠ ""
    ∧ (env.cacheGet q = Except.error () → ∀ a r, Event.cacheSetCall a r ∉ (get_response env q).1)
    ∧ ((get_response_body env q).2 = Except.error () → ∀ a r,
        Event.cacheSetCall a r ∈ (get_response env q).1 → env.cacheSet a r = Except.error ()) := by
  refine ⟨?_, by decide, ?_, ?_⟩
  · intro h
    rcases hb : get_response_body env q with ⟨evs, res⟩
    rw [hb] at h
    dsimp at h
    subst h
    simp [get_response, hb]
  · intro h a r
    simp [get_response, get_response_body, h]
  · intro h a r hmem
    rcases hg : env.cacheGet q with u | cached
    · cases u
      have htr : get_response env q = ([Event.cacheGetCall q], error_message) := by
        simp [get_response, get_response_body, hg]
      rw [htr] at hmem
      simp at hmem
    · rcases hc : pyTruthy cached with _ | c
      · have hb2 : (stages_after_cache env q).2 = Except.error () := by
          simpa [get_response_body, hg, hc] using h
        have htr : (get_response env q).1 = Event.cacheGetCall q :: (stages_after_cache env q).1 := by
          rcases hst : stages_after_cache env q with ⟨sevs, sres⟩
          rw [hst] at hb2
          dsimp at hb2
          subst hb2
          simp [get_response, get_response_body, hg, hc, hst]
        rw [htr] at hmem
        simp at hmem
        exact stages_error_sets env q hb2 a r hmem
      · simp [get_response_body, hg, hc] at h

theorem get_response_total_witness :
    (get_response envAllFail "a third question").2 = error_message
    ∧ Event.cacheSetCall "a third question" "x" ∉ (get_response envAllFail "a third question").1 := by
  have h := get_response_total envAllFail "a third question"
  exact ⟨h.1 rfl, h.2.2.1 rfl "a third question" "x"⟩

end SportsPipeline

set_option maxRecDepth 8000

namespace SportsPipeline

theorem validation_approves_true (env : Env) (validation : Option String)
    (h : validation_approves env validation = true) :
    ∃ v fields, validation = some v ∧ env.jsonLoads v = Except.ok (JValue.obj fields)
      ∧ (dictGet fields "is_valid" (JValue.bool false)).truthy = true := by
  cases validation with
  | none => simp [validation_approves] at h
  | some v =>
    rcases hj : env.jsonLoads v with u | jv
    · simp [validation_approves, hj] at h
    · cases jv with
      | obj fields =>
        refine ⟨v, fields, rfl, hj, ?_⟩
        simpa [validation_approves, hj] using h
      | null => simp [validation_approves, hj] at h
      | bool b => simp [validation_approves, hj] at h
      | num n => simp [validation_approves, hj] at h
      | str s => simp [validation_approves, hj] at h
      | arr elems => simp [validation_approves, hj] at h

/-- C2 counterexample: a validation response that is well-formed JSON
carrying is_valid true but no reason field at all is treated as
approval: the web-search stage returns the synthesized answer. -/
theorem web_validation_missing_reason_approved :
    envNoReason.jsonLoads validation_text_no_reason
        = Except.ok (JValue.obj [("is_valid", JValue.bool true)])
    ∧ List.lookup "reason" [(("is_valid" : String), JValue.bool true)] = none
    ∧ (perform_web_search envNoReason "who won the cup").2
        = some "Argentina won the 2022 World Cup" := by
  refine ⟨rfl, rfl, ?_⟩
  rfl

/-- C2 amended: if every possible validation response either fails to
parse as JSON or parses to an object with no is_valid field, the
web-search stage yields no answer; in particular an unparsable
validation response is never treated as approval. -/
theorem web_validation_fail_closed (env : Env) (q : String)
    (h : ∀ v, env.jsonLoads v = Except.error ()
         ∨ ∃ fields, env.jsonLoads v = Except.ok (JValue.obj fields)
             ∧ List.lookup "is_valid" fields = none) :
    (perform_web_search env q).2 = none := by
  refine web_none_of_no_approve env q ?_
  intro validation
  cases validation with
  | none => rfl
  | some v =>
    rcases h v with he | ⟨fields, hf, hno⟩
    · simp [validation_approves, he]
    · simp [validation_approves, hf, dictGet, hno, JValue.truthy]

theorem web_validation_fail_closed_witness :
    (perform_web_search envJsonFail "who won the cup").2 = none :=
  web_validation_fail_closed envJsonFail "who won the cup" (fun _ => Or.inl rfl)

/-- C4 counterexample: a validation verdict whose is_valid is the
string "yes", not a boolean, is treated as approval: the web-search
stage returns the synthesized answer. -/
theorem web_validation_nonbool_approved :
    envNonBool.jsonLoads validation_text_nonbool
        = Except.ok (JValue.obj [("is_valid", JValue.str "yes"), ("reason", JValue.str "sources agree")])
    ∧ dictGet [("is_valid", JValue.str "yes"), ("reason", JValue.str "sources agree")]
        "is_valid" (JValue.bool false) = JValue.str "yes"
    ∧ (perform_web_search envNonBool "who won the cup").2
        = some "Argentina won the 2022 World Cup" := by
  refine ⟨rfl, rfl, ?_⟩
  rfl

/-- C4 amended: the web-search stage returns an answer only when the
validation response was obtained from the validation completion call,
parsed as a JSON object, and that object's is_valid value is
Python-truthy (any truthy value, boolean or not). -/
theorem web_approval_requires_truthy_is_valid (env : Env) (q r : String)
    (h : (perform_web_search env q).2 = some r) :
    ∃ ctx v fields,
      env.getCompletion validation_prompt (validation_user_message r ctx) = Except.ok (some v)
      ∧ env.jsonLoads v = Except.ok (JValue.obj fields)
      ∧ (dictGet fields "is_valid" (JValue.bool false)).truthy = true := by
  rcases hs : env.search (web_search_query q) with u | results
  · simp [perform_web_search, hs] at h
  · by_cases hre : results.isEmpty
    · simp [perform_web_search, hs, hre] at h
    · rcases hc1 : env.getCompletion web_system_prompt
          (web_user_message q (String.intercalate "\n" (results.take 3))) with u | resp
      · simp [perform_web_search, hs, hre, hc1] at h
      · rcases hp : pyTruthy resp with _ | r0
        · simp [perform_web_search, hs, hre, hc1, hp] at h
        · rcases hc2 : env.getCompletion validation_prompt
              (validation_user_message r0 (String.intercalate "\n" (results.take 3))) with u | validation
          · simp [perform_web_search, hs, hre, hc1, hp, hc2] at h
          · by_cases ha : validation_approves env validation
            · have hr0 : r0 = r := by
                simpa [perform_web_search, hs, hre, hc1, hp, hc2, ha] using h
              subst hr0
              obtain ⟨v, fields, hv, hj, ht⟩ := validation_approves_true env validation ha
              subst hv
              exact ⟨String.intercalate "\n" (results.take 3), v, fields, hc2, hj, ht⟩
            · simp [perform_web_search, hs, hre, hc1, hp, hc2, ha] at h

theorem web_approval_truthy_witness :
    ∃ ctx v fields,
      envNonBool.getCompletion validation_prompt
          (validation_user_message "Argentina won the 2022 World Cup" ctx) = Except.ok (some v)
      ∧ envNonBool.jsonLoads v = Except.ok (JValue.obj fields)
      ∧ (dictGet fields "is_valid" (JValue.bool false)).truthy = true :=
  web_approval_requires_truthy_is_valid envNonBool "who won the trophy"
    "Argentina won the 2022 World Cup" (by rfl)

end SportsPipeline

namespace AppModel

open SportsPipeline

theorem ask_shape (env : AppEnv) :
    (∃ a t, ask env = AskOutcome.success a t ∧ a ≠ "")
    ∨ (∃ m c s, ask env = AskOutcome.failure m c s ∧
        (c = "EXPERT_SYSTEM_ERROR" ∨ c = "MISSING_QUESTION" ∨ c = "NO_RESPONSE"
          ∨ c = "INTERNAL_ERROR")) := by
  unfold ask ask_body
  cases hsel : env.selectorUp with
  | false =>
    exact Or.inr ⟨_, _, _, rfl, by simp⟩
  | true =>
    rcases hj : env.getJson with e | dat
    · exact Or.inr ⟨_, _, _, rfl, by simp⟩
    · rcases dat with _ | questionField
      · exact Or.inr ⟨_, _, _, rfl, by simp⟩
      · dsimp only
        rcases hqf : pyTruthy questionField with _ | question
        · exact Or.inr ⟨_, _, _, rfl, by simp⟩
        · dsimp only
          rcases hse : env.selectExpert question with e | sel
          · exact Or.inr ⟨_, _, _, rfl, by simp⟩
          · dsimp only
            rcases hpt : pyTruthy sel.1 with _ | t
            · dsimp only
              rcases hresp : pyTruthy sel.2 with _ | r
              · exact Or.inr ⟨_, _, _, rfl, by simp⟩
              · exact Or.inl ⟨r, _, rfl, pyTruthy_ne_empty hresp⟩
            · dsimp only
              rcases hd : dispatch env t question with e | response
              · exact Or.inr ⟨_, _, _, rfl, by simp⟩
              · dsimp only
                rcases hresp : pyTruthy response with _ | r
                · exact Or.inr ⟨_, _, _, rfl, by simp⟩
                · exact Or.inl ⟨r, _, rfl, pyTruthy_ne_empty hresp⟩

/-- C9: the /ask handler never replies success with an empty or missing
answer: every success carries a non-empty answer string, and every
non-success carries one of the four machine-readable error codes. -/
theorem ask_success_nonempty_or_coded (env : AppEnv) :
    (∀ a t, ask env = AskOutcome.success a t → a ≠ "")
    ∧ (∀ m c s, ask env = AskOutcome.failure m c s →
        c = "EXPERT_SYSTEM_ERROR" ∨ c = "MISSING_QUESTION" ∨ c = "NO_RESPONSE"
          ∨ c = "INTERNAL_ERROR") := by
  rcases ask_shape env with ⟨a, t, hat, hne⟩ | ⟨m, c, s, hmc, hcode⟩
  · constructor
    · intro a' t' h'
      rw [hat] at h'
      cases h'
      exact hne
    · intro m' c' s' h'
      rw [hat] at h'
      cases h'
  · constructor
    · intro a' t' h'
      rw [hmc] at h'
      cases h'
    · intro m' c' s' h'
      rw [hmc] at h'
      cases h'
      exact hcode

theorem ask_success_nonempty_witness : "Argentina won the 2022 World Cup" ≠ "" :=
  (ask_success_nonempty_or_coded askEnv0).1 "Argentina won the 2022 World Cup" "sports" rfl

/-- C8 counterexample: with the cache itself raising, no expert-level
error surfaces out of get_response — it returns the already-converted
fixed degraded message as a plain string — and the caller performs no
conversion: the /ask handler passes that message through as a success
answer. -/
theorem get_response_error_not_surfaced :
    envAllFail.cacheGet "who won" = Except.error ()
    ∧ get_response envAllFail "who won" = ([Event.cacheGetCall "who won"], error_message)
    ∧ ask envCallerPassthrough = AskOutcome.success error_message "sports" :=
  ⟨rfl, rfl, rfl⟩

end AppModel
